import Mathlib

/-!
Verification of `cisco_csaf_dl.py` (Cisco CSAF downloader).

Shallow embedding conventions:
* Wall-clock time is modelled as `ℚ` (Python `total_seconds()` on
  `datetime` differences).  `time.sleep(d)` advances the wall clock by
  exactly `d`; intervening processing time is idealized to zero.
* Python `int` counters are modelled as `ℤ`.
* The limiter's per-instance attributes `SECOND_LIMIT`/`MINUTE_LIMIT`/
  `DAY_LIMIT` are fixed at construction, so they are module constants.
-/

def SECOND_LIMIT : ℤ := 5

def MINUTE_LIMIT : ℤ := 30

def DAY_LIMIT : ℤ := 5000

/-- State of `RateLimiter` (fields in `__init__` order). -/
structure RateLimiter where
  second_timestamp : ℚ
  second_counter : ℤ
  minute_timestamp : ℚ
  minute_counter : ℤ
  day_timestamp : ℚ
  day_counter : ℤ
deriving DecidableEq, Repr

/-- `RateLimiter.__init__` run at wall-clock time `t0`: all three
`datetime.now()` reads are the same instant, counters start at 0. -/
def RateLimiter.init (t0 : ℚ) : RateLimiter :=
  ⟨t0, 0, t0, 0, t0, 0⟩

/-- The counter-reset block at the top of `wait_if_needed` (lines 53-64):
each window whose elapsed time reaches its duration gets `counter := 0`,
`timestamp := current_time`. -/
def resetPhase (s : RateLimiter) (current_time : ℚ) : RateLimiter :=
  let s1 := if current_time - s.second_timestamp ≥ 1 then
      { s with second_counter := 0, second_timestamp := current_time } else s
  let s2 := if current_time - s1.minute_timestamp ≥ 60 then
      { s1 with minute_counter := 0, minute_timestamp := current_time } else s1
  if current_time - s2.day_timestamp ≥ 86400 then
      { s2 with day_counter := 0, day_timestamp := current_time } else s2

/-- The "Check second limit" block (lines 66-74).  `current_time` is the
value captured at the top of `wait_if_needed`; `now` is the wall clock
when this block starts.  Sleeping advances the wall clock by `sleep_time`
and the post-sleep `datetime.now()` is that advanced clock. -/
def checkSecond (s : RateLimiter) (current_time now : ℚ) : RateLimiter × ℚ :=
  if s.second_counter ≥ SECOND_LIMIT then
    let sleep_time := 1 - (current_time - s.second_timestamp)
    if sleep_time > 0 then
      ({ s with second_counter := 0, second_timestamp := now + sleep_time },
       now + sleep_time)
    else (s, now)
  else (s, now)

/-- The "Check minute limit" block (lines 76-84). -/
def checkMinute (s : RateLimiter) (current_time now : ℚ) : RateLimiter × ℚ :=
  if s.minute_counter ≥ MINUTE_LIMIT then
    let sleep_time := 60 - (current_time - s.minute_timestamp)
    if sleep_time > 0 then
      ({ s with minute_counter := 0, minute_timestamp := now + sleep_time },
       now + sleep_time)
    else (s, now)
  else (s, now)

/-- The "Check day limit" block (lines 86-94). -/
def checkDay (s : RateLimiter) (current_time now : ℚ) : RateLimiter × ℚ :=
  if s.day_counter ≥ DAY_LIMIT then
    let sleep_time := 86400 - (current_time - s.day_timestamp)
    if sleep_time > 0 then
      ({ s with day_counter := 0, day_timestamp := now + sleep_time },
       now + sleep_time)
    else (s, now)
  else (s, now)

/-- `RateLimiter.wait_if_needed`, entered at wall-clock time
`current_time` (the single `datetime.now()` read at line 51, reused by
every later elapsed-time computation).  Returns the new limiter state and
the wall clock when the method returns (entry time plus all sleeps). -/
def wait_if_needed (s : RateLimiter) (current_time : ℚ) : RateLimiter × ℚ :=
  let s0 := resetPhase s current_time
  let p1 := checkSecond s0 current_time current_time
  let p2 := checkMinute p1.1 current_time p1.2
  checkDay p2.1 current_time p2.2

/-- `RateLimiter.increment` (lines 96-100). -/
def increment (s : RateLimiter) : RateLimiter :=
  { s with
    second_counter := s.second_counter + 1
    minute_counter := s.minute_counter + 1
    day_counter := s.day_counter + 1 }

/-- `sleep_time` as computed in the second-limit block. -/
def sleepSecond (s : RateLimiter) (t : ℚ) : ℚ := 1 - (t - s.second_timestamp)

/-- `sleep_time` as computed in the minute-limit block. -/
def sleepMinute (s : RateLimiter) (t : ℚ) : ℚ := 60 - (t - s.minute_timestamp)

/-- `sleep_time` as computed in the day-limit block. -/
def sleepDay (s : RateLimiter) (t : ℚ) : ℚ := 86400 - (t - s.day_timestamp)

/-- Time actually slept in the second-limit block of a `wait_if_needed`
call entered in state `s` at time `t`. -/
def waitSecond (s : RateLimiter) (t : ℚ) : ℚ :=
  if s.second_counter ≥ SECOND_LIMIT ∧ 0 < sleepSecond s t then sleepSecond s t else 0

/-- Time actually slept in the minute-limit block. -/
def waitMinute (s : RateLimiter) (t : ℚ) : ℚ :=
  if s.minute_counter ≥ MINUTE_LIMIT ∧ 0 < sleepMinute s t then sleepMinute s t else 0

/-- Time actually slept in the day-limit block. -/
def waitDay (s : RateLimiter) (t : ℚ) : ℚ :=
  if s.day_counter ≥ DAY_LIMIT ∧ 0 < sleepDay s t then sleepDay s t else 0

/-- One caller-visible operation on the limiter: `wait t` is
`wait_if_needed` entered at time `t`, `record` is `increment`. -/
inductive Op where
  | wait (t : ℚ)
  | record
deriving Repr

def applyOp (s : RateLimiter) : Op → RateLimiter
  | Op.wait t => (wait_if_needed s t).1
  | Op.record => increment s

def applyOps (s : RateLimiter) (ops : List Op) : RateLimiter :=
  ops.foldl applyOp s

/-- Run a sequence of desired call times through `wait_if_needed` then
`increment` (the orchestrator's admit/record pair around each HTTP call).
A call desired at time `d` starts at `max now d` (the wall clock cannot
run backwards); the returned list holds the instant each call was
permitted (the wall clock when `wait_if_needed` returned). -/
def runTrace : RateLimiter → ℚ → List ℚ → RateLimiter × ℚ × List ℚ
  | s, now, [] => (s, now, [])
  | s, now, d :: ds =>
    let t := max now d
    let p := wait_if_needed s t
    let rest := runTrace (increment p.1) p.2 ds
    (rest.1, rest.2.1, p.2 :: rest.2.2)

/-- Number of permitted calls falling strictly inside the interval
`(lo, hi)`. -/
def callsIn (lo hi : ℚ) (l : List ℚ) : ℕ :=
  (l.filter fun c => decide (lo < c ∧ c < hi)).length

/-!
JSON values and the on-disk state touched by `process_advisories` and
`download_csaf`.  Numbers are modelled as integers (no advisory field
used by the program needs fractional values).
-/

inductive Json where
  | null
  | bool (b : Bool)
  | num (n : ℤ)
  | str (s : String)
  | arr (elems : List Json)
  | obj (fields : List (String × Json))

/-- Python dict key lookup (first binding wins; Python dicts cannot hold
a key twice, so this is exact). -/
def lookupField (key : String) : List (String × Json) → Option Json
  | [] => none
  | (k, v) :: rest => if k = key then some v else lookupField key rest

/-- Python truthiness of a JSON-decoded value (`if not advisories`). -/
def pyFalsy : Json → Bool
  | Json.null => true
  | Json.bool b => !b
  | Json.num n => n = 0
  | Json.str s => s.isEmpty
  | Json.arr l => l.isEmpty
  | Json.obj f => f.isEmpty

/-- Python `str()` of a decoded JSON value, as used by the f-string that
builds the output filename.  Only the scalar cases are ever exercised by
an `advisoryId` value; the container cases stand in for Python's `repr`
rendering, whose exact text no caller in this development inspects. -/
def pyStr : Json → String
  | Json.null => "None"
  | Json.bool b => if b then "True" else "False"
  | Json.num n => toString n
  | Json.str s => s
  | Json.arr _ => "[...]"
  | Json.obj _ => "\x7b...\x7d"

/-- Directories created and files written.  A later write to the same
path appends a newer entry; `fileNames` lists every path ever written
(the set of files existing on disk). -/
structure FileSystem where
  dirs : List String
  files : List (String × Json)

def FileSystem.fileNames (fs : FileSystem) : List String :=
  fs.files.map Prod.fst

/-- The filename `process_advisories` would write a record to: present
exactly when the record is a dict containing the key `advisoryId`
(lines 168-170), in which case it is `save_path/{advisoryId}.json`. -/
def advisoryFileName (save_path : String) (advisory : Json) : Option String :=
  match advisory with
  | Json.obj fields =>
    match lookupField "advisoryId" fields with
    | some v => some (save_path ++ "/" ++ pyStr v ++ ".json")
    | none => none
  | _ => none

/-- One iteration of the `for advisory in advisories` loop (lines
167-177): write the file when the identifier is present, skip otherwise. -/
def persistAdvisory (save_path : String) (fs : FileSystem) (advisory : Json) :
    FileSystem :=
  match advisoryFileName save_path advisory with
  | some name => { fs with files := fs.files ++ [(name, advisory)] }
  | none => fs

def persistAll (save_path : String) (fs : FileSystem) (l : List Json) : FileSystem :=
  l.foldl (persistAdvisory save_path) fs

/-- `process_advisories(advisories, save_path)` on an arbitrary decoded
value, as the dynamically-typed source permits.  A falsy value returns at
once; a list is iterated; a dict iterates its keys and a string its
characters, none of which is a dict, so every element is skipped; any
other non-falsy value makes `len()` raise `TypeError`, which escapes to
the caller (modelled as `Except.error`). -/
def process_advisories (advisories : Json) (save_path : String) (fs : FileSystem) :
    Except Unit FileSystem :=
  if pyFalsy advisories then Except.ok fs
  else match advisories with
    | Json.arr l => Except.ok (persistAll save_path fs l)
    | Json.obj _ => Except.ok fs
    | Json.str _ => Except.ok fs
    | _ => Except.error ()

/-!
Calendar dates.  `datetime.now() - timedelta(days=d)` subtracts exactly
`d` civil days and never changes the time-of-day part, which
`strftime(%Y-%m-%d)` then discards, so dates are modelled without a
time-of-day component.  (A negative `--days` would add days; the claims
quantify over positive day counts only.)
-/

structure Date where
  year : ℕ
  month : ℕ
  day : ℕ
deriving DecidableEq, Repr

/-- Proleptic Gregorian leap-year rule (Python's `datetime` calendar). -/
def isLeap (y : ℕ) : Bool :=
  (y % 4 = 0 && y % 100 != 0) || y % 400 = 0

def daysInMonth (y m : ℕ) : ℕ :=
  if m = 2 then (if isLeap y then 29 else 28)
  else if m = 4 ∨ m = 6 ∨ m = 9 ∨ m = 11 then 30
  else 31

def predDay (d : Date) : Date :=
  if d.day > 1 then ⟨d.year, d.month, d.day - 1⟩
  else if d.month > 1 then ⟨d.year, d.month - 1, daysInMonth d.year (d.month - 1)⟩
  else ⟨d.year - 1, 12, 31⟩

def subDays (d : Date) (n : ℕ) : Date :=
  predDay^[n] d

/-- Zero-padding to two digits (`%m`, `%d`). -/
def pad2 (n : ℕ) : String :=
  if n < 10 then "0" ++ toString n else toString n

/-- Zero-padding to four digits (`%Y`). -/
def pad4 (n : ℕ) : String :=
  if n < 10 then "000" ++ toString n
  else if n < 100 then "00" ++ toString n
  else if n < 1000 then "0" ++ toString n
  else toString n

/-- `strftime('%Y-%m-%d')`. -/
def formatDate (d : Date) : String :=
  pad4 d.year ++ "-" ++ pad2 d.month ++ "-" ++ pad2 d.day

def CISCO_API_BASE_URL : String :=
  "https://apix.cisco.com/security/advisories/v2/all"

/-- The URL built at lines 203-211, `none` on the invalid-mode path.
`today` is the calendar date of the frozen `datetime.now()`. -/
def buildUrl (mode : String) (days : ℕ) (today : Date) : Option String :=
  if mode = "all" then some CISCO_API_BASE_URL
  else if mode = "dates" then
    some (CISCO_API_BASE_URL ++ "/lastpublished?startDate=" ++
      formatDate (subDays today days) ++ "&endDate=" ++ formatDate today)
  else none

/-!
The HTTP exchange and the driver.  `requests.get` either returns a
response object (any status code; `body = none` models a body that
`response.json()` fails to parse) or raises a transport-level
`RequestException` before a response exists, in which case control jumps
straight to the handler at line 245.
-/

inductive HttpResult where
  | response (status : ℕ) (body : Option Json)
  | transportError (msg : String)

/-- Mutable state a `download_csaf` call can touch: the on-disk state,
the limiter shared across attempts, and the wall clock. -/
structure World where
  fs : FileSystem
  rl : RateLimiter
  now : ℚ

/-- Result of one `download_csaf` call: the returned bool, whether
`requests.get` was invoked, the state afterwards, and the diagnostic
lines printed on the way (only the ones this development reasons about;
progress chatter is omitted). -/
structure DLResult where
  success : Bool
  httpCalled : Bool
  world : World
  output : List String

/-- `True`/`False` outcome plus state of lines 219-243: the response
classification and body handling, which never touch the rate limiter.
Note the unexpected-format path falls through to `return True`. -/
def handle_response (save_path : String) (status : ℕ) (body : Option Json)
    (fs : FileSystem) : Bool × FileSystem × List String :=
  if status = 403 then
    (false, fs, ["Error 403 Forbidden: Token may be expired or invalid"])
  else if 400 ≤ status ∧ status < 600 then
    -- raise_for_status raises; first handler prints and returns False
    (false, fs, ["Error retrieving CSAF list: HTTPError"])
  else
    match body with
    | none => (false, fs, ["Error retrieving CSAF list: JSONDecodeError"])
    | some j =>
      match j with
      | Json.obj fields =>
        match lookupField "advisories" fields with
        | some v =>
          match process_advisories v save_path fs with
          | Except.ok fs2 => (true, fs2, [])
          | Except.error _ => (false, fs, ["Unexpected error: TypeError"])
        | none => (true, fs, ["Unexpected response format"])
      | Json.arr l =>
        match process_advisories (Json.arr l) save_path fs with
        | Except.ok fs2 => (true, fs2, [])
        | Except.error _ => (false, fs, ["Unexpected error: TypeError"])
      | _ => (true, fs, ["Unexpected response format"])

/-- The value handed to `process_advisories` by the shape dispatch at
lines 231-237, `none` when neither accepted shape matches. -/
def decodeResponse : Json → Option Json
  | Json.obj fields => lookupField "advisories" fields
  | Json.arr l => some (Json.arr l)
  | _ => none

/-- `download_csaf(save_path, auth_token, rate_limiter, mode, days)`.
`today` is the calendar date of the frozen clock, `http` the outcome of
the single `requests.get`.  The directory is created first (line 194),
the URL built next, `wait_if_needed` precedes the GET and `increment`
runs only if the GET returned a response. -/
def download_csaf (save_path auth_token mode : String) (days : ℕ) (today : Date)
    (http : HttpResult) (w : World) : DLResult :=
  let fs0 : FileSystem :=
    if save_path ∈ w.fs.dirs then w.fs else ⟨save_path :: w.fs.dirs, w.fs.files⟩
  match buildUrl mode days today with
  | none =>
    { success := false, httpCalled := false
      world := ⟨fs0, w.rl, w.now⟩
      output := ["Invalid mode. Use all or dates."] }
  | some _ =>
    let p := wait_if_needed w.rl w.now
    match http with
    | HttpResult.transportError msg =>
      -- requests.get raised: increment is never reached
      { success := false, httpCalled := true
        world := ⟨fs0, p.1, p.2⟩
        output := ["Error retrieving CSAF list: " ++ msg] }
    | HttpResult.response status body =>
      let rl2 := increment p.1
      let h := handle_response save_path status body fs0
      { success := h.1, httpCalled := true
        world := ⟨h.2.1, rl2, p.2⟩
        output := h.2.2 }

/-- What the driver did: how many `download_csaf` attempts ran, how many
`get_new_token` calls were made, the final state and printed lines, and
the process exit status (`main` returns without `sys.exit`, so CPython
exits with status 0 on every path). -/
structure MainResult where
  runCalls : ℕ
  tokenCalls : ℕ
  world : World
  output : List String
  exitCode : ℕ

/-- Lines 278-301 of `main`, once a token is in hand.  `gen i` is the
result of the `i`-th `get_new_token` call of the process;
`genCallsBefore` counts the calls already made while acquiring the
initial token.  `https i` is the HTTP outcome of attempt `i`.  The second
attempt's return value is discarded by the source. -/
def mainAfterToken (tok : String) (genCallsBefore : ℕ) (gen : ℕ → Option String)
    (save_path mode : String) (days : ℕ) (today : Date) (https : ℕ → HttpResult)
    (w : World) : MainResult :=
  let r1 := download_csaf save_path tok mode days today (https 0) w
  if r1.success then
    { runCalls := 1, tokenCalls := genCallsBefore, world := r1.world
      output := r1.output, exitCode := 0 }
  else
    match gen genCallsBefore with
    | none =>
      { runCalls := 1, tokenCalls := genCallsBefore + 1, world := r1.world
        output := r1.output ++
          ["Initial download attempt failed. Attempting to refresh token and retry...",
           "Failed to obtain new token. Cannot retry download."]
        exitCode := 0 }
    | some tok2 =>
      let r2 := download_csaf save_path tok2 mode days today (https 1) r1.world
      { runCalls := 2, tokenCalls := genCallsBefore + 1, world := r2.world
        output := r1.output ++
          ["Initial download attempt failed. Attempting to refresh token and retry...",
           "Retrying download with new token..."] ++ r2.output
        exitCode := 0 }

/-- `main` (lines 255-301; the name `main` is reserved in Lean, hence
`mainDriver`).  `cliToken` is `--token`; when absent the driver calls
`get_new_token` and exits (status 0, line 273) if that fails. -/
def mainDriver (cliToken : Option String) (gen : ℕ → Option String)
    (save_path mode : String) (days : ℕ) (today : Date) (https : ℕ → HttpResult)
    (w : World) : MainResult :=
  match cliToken with
  | some tok => mainAfterToken tok 0 gen save_path mode days today https w
  | none =>
    match gen 0 with
    | none =>
      { runCalls := 0, tokenCalls := 1, world := w
        output := ["No token provided, attempting to generate one from credentials.json",
                   "Failed to obtain token. Exiting."]
        exitCode := 0 }
    | some tok => mainAfterToken tok 1 gen save_path mode days today https w

/-!
Characterization of `wait_if_needed`, phase by phase.
-/

theorem resetPhase_eq (s : RateLimiter) (t : ℚ) :
    resetPhase s t =
      ⟨if t - s.second_timestamp ≥ 1 then t else s.second_timestamp,
       if t - s.second_timestamp ≥ 1 then 0 else s.second_counter,
       if t - s.minute_timestamp ≥ 60 then t else s.minute_timestamp,
       if t - s.minute_timestamp ≥ 60 then 0 else s.minute_counter,
       if t - s.day_timestamp ≥ 86400 then t else s.day_timestamp,
       if t - s.day_timestamp ≥ 86400 then 0 else s.day_counter⟩ := by
  simp only [resetPhase]
  split_ifs <;> rfl

theorem checkSecond_eq (s : RateLimiter) (t now : ℚ) :
    checkSecond s t now =
      if s.second_counter ≥ SECOND_LIMIT ∧ 0 < sleepSecond s t then
        ({ s with second_counter := 0, second_timestamp := now + sleepSecond s t },
         now + sleepSecond s t)
      else (s, now) := by
  simp only [checkSecond, sleepSecond]
  split_ifs with h1 h2 h3 <;> first | rfl | simp_all

theorem checkMinute_eq (s : RateLimiter) (t now : ℚ) :
    checkMinute s t now =
      if s.minute_counter ≥ MINUTE_LIMIT ∧ 0 < sleepMinute s t then
        ({ s with minute_counter := 0, minute_timestamp := now + sleepMinute s t },
         now + sleepMinute s t)
      else (s, now) := by
  simp only [checkMinute, sleepMinute]
  split_ifs with h1 h2 h3 <;> first | rfl | simp_all

theorem checkDay_eq (s : RateLimiter) (t now : ℚ) :
    checkDay s t now =
      if s.day_counter ≥ DAY_LIMIT ∧ 0 < sleepDay s t then
        ({ s with day_counter := 0, day_timestamp := now + sleepDay s t },
         now + sleepDay s t)
      else (s, now) := by
  simp only [checkDay, sleepDay]
  split_ifs with h1 h2 h3 <;> first | rfl | simp_all

theorem checkSecond_others (s : RateLimiter) (t now : ℚ) :
    (checkSecond s t now).1.minute_counter = s.minute_counter ∧
    (checkSecond s t now).1.minute_timestamp = s.minute_timestamp ∧
    (checkSecond s t now).1.day_counter = s.day_counter ∧
    (checkSecond s t now).1.day_timestamp = s.day_timestamp := by
  simp only [checkSecond]; split_ifs <;> simp

theorem checkMinute_others (s : RateLimiter) (t now : ℚ) :
    (checkMinute s t now).1.second_counter = s.second_counter ∧
    (checkMinute s t now).1.second_timestamp = s.second_timestamp ∧
    (checkMinute s t now).1.day_counter = s.day_counter ∧
    (checkMinute s t now).1.day_timestamp = s.day_timestamp := by
  simp only [checkMinute]; split_ifs <;> simp

theorem checkDay_others (s : RateLimiter) (t now : ℚ) :
    (checkDay s t now).1.second_counter = s.second_counter ∧
    (checkDay s t now).1.second_timestamp = s.second_timestamp ∧
    (checkDay s t now).1.minute_counter = s.minute_counter ∧
    (checkDay s t now).1.minute_timestamp = s.minute_timestamp := by
  simp only [checkDay]; split_ifs <;> simp

theorem csr_sc (s : RateLimiter) (t : ℚ) :
    (checkSecond (resetPhase s t) t t).1.second_counter =
      if s.second_counter ≥ SECOND_LIMIT ∨ t - s.second_timestamp ≥ 1 then 0
      else s.second_counter := by
  rw [checkSecond_eq, resetPhase_eq]
  split_ifs <;> simp_all [sleepSecond, SECOND_LIMIT] <;>
    first
      | omega
      | linarith
      | (rcases ‹_ ∨ _› with h | h <;> first | omega | linarith)

theorem csr_sts (s : RateLimiter) (t : ℚ) :
    (checkSecond (resetPhase s t) t t).1.second_timestamp =
      if s.second_counter ≥ SECOND_LIMIT ∧ 0 < sleepSecond s t then t + sleepSecond s t
      else if t - s.second_timestamp ≥ 1 then t else s.second_timestamp := by
  rw [checkSecond_eq, resetPhase_eq]
  split_ifs <;> simp_all [sleepSecond, SECOND_LIMIT] <;>
    first
      | omega
      | linarith
      | (rcases ‹_ ∨ _› with h | h <;> first | omega | linarith)

theorem csr_now (s : RateLimiter) (t : ℚ) :
    (checkSecond (resetPhase s t) t t).2 = t + waitSecond s t := by
  rw [checkSecond_eq, resetPhase_eq]
  simp only [waitSecond]
  split_ifs <;> simp_all [sleepSecond, SECOND_LIMIT] <;>
    first
      | omega
      | linarith
      | (rcases ‹_ ∨ _› with h | h <;> first | omega | linarith)

theorem csr_mc (s : RateLimiter) (t : ℚ) :
    (checkSecond (resetPhase s t) t t).1.minute_counter =
      if t - s.minute_timestamp ≥ 60 then 0 else s.minute_counter := by
  rw [(checkSecond_others _ _ _).1, resetPhase_eq]

theorem csr_mts (s : RateLimiter) (t : ℚ) :
    (checkSecond (resetPhase s t) t t).1.minute_timestamp =
      if t - s.minute_timestamp ≥ 60 then t else s.minute_timestamp := by
  rw [(checkSecond_others _ _ _).2.1, resetPhase_eq]

theorem csr_dc (s : RateLimiter) (t : ℚ) :
    (checkSecond (resetPhase s t) t t).1.day_counter =
      if t - s.day_timestamp ≥ 86400 then 0 else s.day_counter := by
  rw [(checkSecond_others _ _ _).2.2.1, resetPhase_eq]

theorem csr_dts (s : RateLimiter) (t : ℚ) :
    (checkSecond (resetPhase s t) t t).1.day_timestamp =
      if t - s.day_timestamp ≥ 86400 then t else s.day_timestamp := by
  rw [(checkSecond_others _ _ _).2.2.2, resetPhase_eq]

theorem cm_now (s : RateLimiter) (t : ℚ) :
    (checkMinute (checkSecond (resetPhase s t) t t).1 t
        (checkSecond (resetPhase s t) t t).2).2 =
      t + waitSecond s t + waitMinute s t := by
  have hmc := csr_mc s t
  have hmts := csr_mts s t
  have hnow := csr_now s t
  set x := (checkSecond (resetPhase s t) t t).1 with hx
  set n := (checkSecond (resetPhase s t) t t).2 with hn
  clear_value x n
  rw [checkMinute_eq]
  simp only [sleepMinute, hmc, hmts, hnow, waitMinute]
  split_ifs <;> simp_all [MINUTE_LIMIT] <;>
    first
      | omega
      | linarith
      | (rcases ‹_ ∨ _› with h | h <;> first | omega | linarith)

theorem cm_sc (s : RateLimiter) (t : ℚ) :
    (checkMinute (checkSecond (resetPhase s t) t t).1 t
        (checkSecond (resetPhase s t) t t).2).1.second_counter =
      if s.second_counter ≥ SECOND_LIMIT ∨ t - s.second_timestamp ≥ 1 then 0
      else s.second_counter := by
  rw [(checkMinute_others _ _ _).1, csr_sc]

theorem cm_sts (s : RateLimiter) (t : ℚ) :
    (checkMinute (checkSecond (resetPhase s t) t t).1 t
        (checkSecond (resetPhase s t) t t).2).1.second_timestamp =
      if s.second_counter ≥ SECOND_LIMIT ∧ 0 < sleepSecond s t then t + sleepSecond s t
      else if t - s.second_timestamp ≥ 1 then t else s.second_timestamp := by
  rw [(checkMinute_others _ _ _).2.1, csr_sts]

theorem cm_dc (s : RateLimiter) (t : ℚ) :
    (checkMinute (checkSecond (resetPhase s t) t t).1 t
        (checkSecond (resetPhase s t) t t).2).1.day_counter =
      if t - s.day_timestamp ≥ 86400 then 0 else s.day_counter := by
  rw [(checkMinute_others _ _ _).2.2.1, csr_dc]

theorem cm_dts (s : RateLimiter) (t : ℚ) :
    (checkMinute (checkSecond (resetPhase s t) t t).1 t
        (checkSecond (resetPhase s t) t t).2).1.day_timestamp =
      if t - s.day_timestamp ≥ 86400 then t else s.day_timestamp := by
  rw [(checkMinute_others _ _ _).2.2.2, csr_dts]

theorem cm_mc (s : RateLimiter) (t : ℚ) :
    (checkMinute (checkSecond (resetPhase s t) t t).1 t
        (checkSecond (resetPhase s t) t t).2).1.minute_counter =
      if s.minute_counter ≥ MINUTE_LIMIT ∨ t - s.minute_timestamp ≥ 60 then 0
      else s.minute_counter := by
  have hmc := csr_mc s t
  have hmts := csr_mts s t
  set x := (checkSecond (resetPhase s t) t t).1 with hx
  set n := (checkSecond (resetPhase s t) t t).2 with hn
  clear_value x n
  rw [checkMinute_eq]
  simp only [sleepMinute, hmc, hmts]
  split_ifs <;> simp_all [MINUTE_LIMIT] <;>
    first
      | omega
      | linarith
      | (rcases ‹_ ∨ _› with h | h <;> first | omega | linarith)

theorem cm_mts (s : RateLimiter) (t : ℚ) :
    (checkMinute (checkSecond (resetPhase s t) t t).1 t
        (checkSecond (resetPhase s t) t t).2).1.minute_timestamp =
      if s.minute_counter ≥ MINUTE_LIMIT ∧ 0 < sleepMinute s t then
        t + waitSecond s t + sleepMinute s t
      else if t - s.minute_timestamp ≥ 60 then t else s.minute_timestamp := by
  have hmc := csr_mc s t
  have hmts := csr_mts s t
  have hnow := csr_now s t
  set x := (checkSecond (resetPhase s t) t t).1 with hx
  set n := (checkSecond (resetPhase s t) t t).2 with hn
  clear_value x n
  rw [checkMinute_eq]
  simp only [sleepMinute, hmc, hmts, hnow]
  split_ifs <;> simp_all [MINUTE_LIMIT] <;>
    first
      | omega
      | linarith
      | (rcases ‹_ ∨ _› with h | h <;> first | omega | linarith)

theorem wait_sc (s : RateLimiter) (t : ℚ) :
    (wait_if_needed s t).1.second_counter =
      if s.second_counter ≥ SECOND_LIMIT ∨ t - s.second_timestamp ≥ 1 then 0
      else s.second_counter := by
  simp only [wait_if_needed]
  rw [(checkDay_others _ _ _).1, cm_sc]

theorem wait_sts (s : RateLimiter) (t : ℚ) :
    (wait_if_needed s t).1.second_timestamp =
      if s.second_counter ≥ SECOND_LIMIT ∧ 0 < sleepSecond s t then t + sleepSecond s t
      else if t - s.second_timestamp ≥ 1 then t else s.second_timestamp := by
  simp only [wait_if_needed]
  rw [(checkDay_others _ _ _).2.1, cm_sts]

theorem wait_mc (s : RateLimiter) (t : ℚ) :
    (wait_if_needed s t).1.minute_counter =
      if s.minute_counter ≥ MINUTE_LIMIT ∨ t - s.minute_timestamp ≥ 60 then 0
      else s.minute_counter := by
  simp only [wait_if_needed]
  rw [(checkDay_others _ _ _).2.2.1, cm_mc]

theorem wait_mts (s : RateLimiter) (t : ℚ) :
    (wait_if_needed s t).1.minute_timestamp =
      if s.minute_counter ≥ MINUTE_LIMIT ∧ 0 < sleepMinute s t then
        t + waitSecond s t + sleepMinute s t
      else if t - s.minute_timestamp ≥ 60 then t else s.minute_timestamp := by
  simp only [wait_if_needed]
  rw [(checkDay_others _ _ _).2.2.2, cm_mts]

theorem wait_dc (s : RateLimiter) (t : ℚ) :
    (wait_if_needed s t).1.day_counter =
      if s.day_counter ≥ DAY_LIMIT ∨ t - s.day_timestamp ≥ 86400 then 0
      else s.day_counter := by
  simp only [wait_if_needed]
  have hdc := cm_dc s t
  have hdts := cm_dts s t
  set y := (checkMinute (checkSecond (resetPhase s t) t t).1 t
      (checkSecond (resetPhase s t) t t).2).1 with hy
  set m := (checkMinute (checkSecond (resetPhase s t) t t).1 t
      (checkSecond (resetPhase s t) t t).2).2 with hm
  clear_value y m
  rw [checkDay_eq]
  simp only [sleepDay, hdc, hdts]
  split_ifs <;> simp_all [DAY_LIMIT] <;>
    first
      | omega
      | linarith
      | (rcases ‹_ ∨ _› with h | h <;> first | omega | linarith)

theorem wait_dts (s : RateLimiter) (t : ℚ) :
    (wait_if_needed s t).1.day_timestamp =
      if s.day_counter ≥ DAY_LIMIT ∧ 0 < sleepDay s t then
        t + waitSecond s t + waitMinute s t + sleepDay s t
      else if t - s.day_timestamp ≥ 86400 then t else s.day_timestamp := by
  simp only [wait_if_needed]
  have hdc := cm_dc s t
  have hdts := cm_dts s t
  have hnow := cm_now s t
  set y := (checkMinute (checkSecond (resetPhase s t) t t).1 t
      (checkSecond (resetPhase s t) t t).2).1 with hy
  set m := (checkMinute (checkSecond (resetPhase s t) t t).1 t
      (checkSecond (resetPhase s t) t t).2).2 with hm
  clear_value y m
  rw [checkDay_eq]
  simp only [sleepDay, hdc, hdts, hnow]
  split_ifs <;> simp_all [DAY_LIMIT] <;>
    first
      | omega
      | linarith
      | (rcases ‹_ ∨ _› with h | h <;> first | omega | linarith)

theorem wait_now (s : RateLimiter) (t : ℚ) :
    (wait_if_needed s t).2 =
      t + waitSecond s t + waitMinute s t + waitDay s t := by
  simp only [wait_if_needed]
  have hdc := cm_dc s t
  have hdts := cm_dts s t
  have hnow := cm_now s t
  set y := (checkMinute (checkSecond (resetPhase s t) t t).1 t
      (checkSecond (resetPhase s t) t t).2).1 with hy
  set m := (checkMinute (checkSecond (resetPhase s t) t t).1 t
      (checkSecond (resetPhase s t) t t).2).2 with hm
  clear_value y m
  rw [checkDay_eq]
  simp only [sleepDay, hdc, hdts, hnow, waitDay]
  split_ifs <;> simp_all [DAY_LIMIT] <;>
    first
      | omega
      | linarith
      | (rcases ‹_ ∨ _› with h | h <;> first | omega | linarith)

theorem post_wait_counters_lt (s : RateLimiter) (t : ℚ) :
    (wait_if_needed s t).1.second_counter < SECOND_LIMIT ∧
    (wait_if_needed s t).1.minute_counter < MINUTE_LIMIT ∧
    (wait_if_needed s t).1.day_counter < DAY_LIMIT := by
  refine ⟨?_, ?_, ?_⟩
  · rw [wait_sc]; split_ifs with h
    · norm_num [SECOND_LIMIT]
    · push_neg at h; exact h.1
  · rw [wait_mc]; split_ifs with h
    · norm_num [MINUTE_LIMIT]
    · push_neg at h; exact h.1
  · rw [wait_dc]; split_ifs with h
    · norm_num [DAY_LIMIT]
    · push_neg at h; exact h.1

theorem wait_counter_cases (s : RateLimiter) (t : ℚ) :
    ((wait_if_needed s t).1.second_counter = s.second_counter ∨
      (wait_if_needed s t).1.second_counter = 0) ∧
    ((wait_if_needed s t).1.minute_counter = s.minute_counter ∨
      (wait_if_needed s t).1.minute_counter = 0) ∧
    ((wait_if_needed s t).1.day_counter = s.day_counter ∨
      (wait_if_needed s t).1.day_counter = 0) := by
  refine ⟨?_, ?_, ?_⟩
  · rw [wait_sc]; split_ifs <;> simp
  · rw [wait_mc]; split_ifs <;> simp
  · rw [wait_dc]; split_ifs <;> simp

theorem applyOp_nonneg (s : RateLimiter) (op : Op)
    (h : 0 ≤ s.second_counter ∧ 0 ≤ s.minute_counter ∧ 0 ≤ s.day_counter) :
    0 ≤ (applyOp s op).second_counter ∧ 0 ≤ (applyOp s op).minute_counter ∧
      0 ≤ (applyOp s op).day_counter := by
  cases op with
  | wait t =>
    obtain ⟨c1, c2, c3⟩ := wait_counter_cases s t
    simp only [applyOp]
    refine ⟨?_, ?_, ?_⟩
    · rcases c1 with hc | hc <;> rw [hc] <;> omega
    · rcases c2 with hc | hc <;> rw [hc] <;> omega
    · rcases c3 with hc | hc <;> rw [hc] <;> omega
  | record => simp only [applyOp, increment]; omega

theorem applyOps_nonneg (ops : List Op) (s : RateLimiter)
    (h : 0 ≤ s.second_counter ∧ 0 ≤ s.minute_counter ∧ 0 ≤ s.day_counter) :
    0 ≤ (applyOps s ops).second_counter ∧ 0 ≤ (applyOps s ops).minute_counter ∧
      0 ≤ (applyOps s ops).day_counter := by
  induction ops generalizing s with
  | nil => exact h
  | cons op rest ih => exact ih (applyOp s op) (applyOp_nonneg s op h)

/-- C1 (amended): after every throttle decision (`wait_if_needed`), each
fixed window's count is strictly below its limit, so the `increment` of
the permitted call leaves every count at most its limit.  (The
rolling-window half of the claim fails: see the counterexample, which
exhibits ten permitted calls inside one rolling second.) -/
theorem C1_counters_below_limits_after_throttle (s : RateLimiter) (t : ℚ) :
    (wait_if_needed s t).1.second_counter < SECOND_LIMIT ∧
    (wait_if_needed s t).1.minute_counter < MINUTE_LIMIT ∧
    (wait_if_needed s t).1.day_counter < DAY_LIMIT ∧
    (increment (wait_if_needed s t).1).second_counter ≤ SECOND_LIMIT ∧
    (increment (wait_if_needed s t).1).minute_counter ≤ MINUTE_LIMIT ∧
    (increment (wait_if_needed s t).1).day_counter ≤ DAY_LIMIT := by
  obtain ⟨h1, h2, h3⟩ := post_wait_counters_lt s t
  refine ⟨h1, h2, h3, ?_, ?_, ?_⟩ <;> simp only [increment] <;> omega

/-- C4: for each window whose count has reached its limit on entry, with
`sleepTime = windowDuration - elapsed`: if `sleepTime` is positive the
call suspends for exactly `sleepTime` on that window's behalf (the total
suspension is the sum of the triggered windows' sleep times) and the
window ends with `count = 0` and `windowStart` equal to the wall clock
when that sleep finished; if `sleepTime <= 0` no wait occurs for that
window and it is simply reset (`count = 0`, `windowStart = current_time`,
by the reset block at the top of the call). -/
theorem C4_over_limit_sleep_and_reset (s : RateLimiter) (t : ℚ) :
    ((wait_if_needed s t).2 = t + waitSecond s t + waitMinute s t + waitDay s t) ∧
    (s.second_counter ≥ SECOND_LIMIT →
      (0 < sleepSecond s t →
        (wait_if_needed s t).1.second_counter = 0 ∧
        (wait_if_needed s t).1.second_timestamp = t + sleepSecond s t ∧
        waitSecond s t = sleepSecond s t) ∧
      (sleepSecond s t ≤ 0 →
        (wait_if_needed s t).1.second_counter = 0 ∧
        (wait_if_needed s t).1.second_timestamp = t ∧
        waitSecond s t = 0)) ∧
    (s.minute_counter ≥ MINUTE_LIMIT →
      (0 < sleepMinute s t →
        (wait_if_needed s t).1.minute_counter = 0 ∧
        (wait_if_needed s t).1.minute_timestamp = t + waitSecond s t + sleepMinute s t ∧
        waitMinute s t = sleepMinute s t) ∧
      (sleepMinute s t ≤ 0 →
        (wait_if_needed s t).1.minute_counter = 0 ∧
        (wait_if_needed s t).1.minute_timestamp = t ∧
        waitMinute s t = 0)) ∧
    (s.day_counter ≥ DAY_LIMIT →
      (0 < sleepDay s t →
        (wait_if_needed s t).1.day_counter = 0 ∧
        (wait_if_needed s t).1.day_timestamp =
          t + waitSecond s t + waitMinute s t + sleepDay s t ∧
        waitDay s t = sleepDay s t) ∧
      (sleepDay s t ≤ 0 →
        (wait_if_needed s t).1.day_counter = 0 ∧
        (wait_if_needed s t).1.day_timestamp = t ∧
        waitDay s t = 0)) := by
  refine ⟨wait_now s t, fun h => ⟨fun hp => ?_, fun hn => ?_⟩,
    fun h => ⟨fun hp => ?_, fun hn => ?_⟩, fun h => ⟨fun hp => ?_, fun hn => ?_⟩⟩
  · rw [wait_sc, wait_sts, waitSecond]
    rw [if_pos (Or.inl h), if_pos ⟨h, hp⟩, if_pos ⟨h, hp⟩]
    exact ⟨rfl, rfl, rfl⟩
  · have hr : t - s.second_timestamp ≥ 1 := by simp only [sleepSecond] at hn; linarith
    rw [wait_sc, wait_sts, waitSecond]
    rw [if_pos (Or.inr hr), if_neg (fun hc => absurd hc.2 (not_lt.mpr hn)),
      if_pos hr, if_neg (fun hc => absurd hc.2 (not_lt.mpr hn))]
    exact ⟨rfl, rfl, rfl⟩
  · rw [wait_mc, wait_mts, waitMinute]
    rw [if_pos (Or.inl h), if_pos ⟨h, hp⟩, if_pos ⟨h, hp⟩]
    exact ⟨rfl, rfl, rfl⟩
  · have hr : t - s.minute_timestamp ≥ 60 := by simp only [sleepMinute] at hn; linarith
    rw [wait_mc, wait_mts, waitMinute]
    rw [if_pos (Or.inr hr), if_neg (fun hc => absurd hc.2 (not_lt.mpr hn)),
      if_pos hr, if_neg (fun hc => absurd hc.2 (not_lt.mpr hn))]
    exact ⟨rfl, rfl, rfl⟩
  · rw [wait_dc, wait_dts, waitDay]
    rw [if_pos (Or.inl h), if_pos ⟨h, hp⟩, if_pos ⟨h, hp⟩]
    exact ⟨rfl, rfl, rfl⟩
  · have hr : t - s.day_timestamp ≥ 86400 := by simp only [sleepDay] at hn; linarith
    rw [wait_dc, wait_dts, waitDay]
    rw [if_pos (Or.inr hr), if_neg (fun hc => absurd hc.2 (not_lt.mpr hn)),
      if_pos hr, if_neg (fun hc => absurd hc.2 (not_lt.mpr hn))]
    exact ⟨rfl, rfl, rfl⟩

/-- C9: a throttle decision never increases a counter (each post-wait
counter is its prior value or 0), only `increment` increases them, by
exactly one each, and from a freshly constructed limiter every counter
stays nonnegative under any sequence of wait/increment operations. -/
theorem C9_only_record_increases_counters :
    (∀ (s : RateLimiter) (t : ℚ),
      ((wait_if_needed s t).1.second_counter = s.second_counter ∨
        (wait_if_needed s t).1.second_counter = 0) ∧
      ((wait_if_needed s t).1.minute_counter = s.minute_counter ∨
        (wait_if_needed s t).1.minute_counter = 0) ∧
      ((wait_if_needed s t).1.day_counter = s.day_counter ∨
        (wait_if_needed s t).1.day_counter = 0)) ∧
    (∀ s : RateLimiter,
      (increment s).second_counter = s.second_counter + 1 ∧
      (increment s).minute_counter = s.minute_counter + 1 ∧
      (increment s).day_counter = s.day_counter + 1) ∧
    (∀ (t0 : ℚ) (ops : List Op),
      0 ≤ (applyOps (RateLimiter.init t0) ops).second_counter ∧
      0 ≤ (applyOps (RateLimiter.init t0) ops).minute_counter ∧
      0 ≤ (applyOps (RateLimiter.init t0) ops).day_counter) := by
  refine ⟨wait_counter_cases, fun s => ⟨rfl, rfl, rfl⟩, fun t0 ops => ?_⟩
  exact applyOps_nonneg ops (RateLimiter.init t0) (by simp [RateLimiter.init])

/-!
Persistence and response handling.
-/

theorem persistAdvisory_fileNames (sp : String) (fs : FileSystem) (a : Json)
    (name : String) :
    name ∈ (persistAdvisory sp fs a).fileNames ↔
      name ∈ fs.fileNames ∨ advisoryFileName sp a = some name := by
  simp only [persistAdvisory]
  cases hf : advisoryFileName sp a with
  | none => simp
  | some nm => simp [FileSystem.fileNames, eq_comm]

theorem persistAll_fileNames (sp : String) (l : List Json) (fs : FileSystem)
    (name : String) :
    name ∈ (persistAll sp fs l).fileNames ↔
      name ∈ fs.fileNames ∨ ∃ a ∈ l, advisoryFileName sp a = some name := by
  induction l generalizing fs with
  | nil => simp [persistAll]
  | cons a rest ih =>
    show name ∈ (persistAll sp (persistAdvisory sp fs a) rest).fileNames ↔ _
    rw [ih, persistAdvisory_fileNames]
    simp only [List.mem_cons]
    constructor
    · rintro ((h | h) | ⟨b, hb, hbn⟩)
      · exact Or.inl h
      · exact Or.inr ⟨a, Or.inl rfl, h⟩
      · exact Or.inr ⟨b, Or.inr hb, hbn⟩
    · rintro (h | ⟨b, hb | hb, hbn⟩)
      · exact Or.inl (Or.inl h)
      · exact Or.inl (Or.inr (hb ▸ hbn))
      · exact Or.inr ⟨b, hb, hbn⟩

theorem persistAdvisory_dirs (sp : String) (fs : FileSystem) (a : Json) :
    (persistAdvisory sp fs a).dirs = fs.dirs := by
  simp only [persistAdvisory]
  cases advisoryFileName sp a <;> rfl

theorem persistAll_dirs (sp : String) (l : List Json) (fs : FileSystem) :
    (persistAll sp fs l).dirs = fs.dirs := by
  induction l generalizing fs with
  | nil => rfl
  | cons a rest ih =>
    show (persistAll sp (persistAdvisory sp fs a) rest).dirs = fs.dirs
    rw [ih, persistAdvisory_dirs]

theorem process_advisories_dirs (v : Json) (sp : String) (fs fs2 : FileSystem)
    (h : process_advisories v sp fs = Except.ok fs2) : fs2.dirs = fs.dirs := by
  simp only [process_advisories] at h
  split_ifs at h with hf
  · cases h; rfl
  · cases v <;> simp_all <;> subst h <;> simp [persistAll_dirs]

theorem handle_response_dirs (sp : String) (st : ℕ) (body : Option Json)
    (fs : FileSystem) : (handle_response sp st body fs).2.1.dirs = fs.dirs := by
  simp only [handle_response]
  split_ifs
  · rfl
  · rfl
  · cases body with
    | none => rfl
    | some j =>
      cases j with
      | null => rfl
      | bool b => rfl
      | num n => rfl
      | str s => rfl
      | arr l =>
        cases hp : process_advisories (Json.arr l) sp fs with
        | ok fs2 => simp [hp, process_advisories_dirs _ _ _ _ hp]
        | error e => simp [hp]
      | obj fields =>
        cases hl : lookupField "advisories" fields with
        | none => simp [hl]
        | some v =>
          simp only [hl]
          cases hp : process_advisories v sp fs with
          | ok fs2 => simp [hp, process_advisories_dirs _ _ _ _ hp]
          | error e => simp [hp]

theorem handle_response_wrapped_eq_bare (sp : String) (st : ℕ) (L : List Json)
    (fs : FileSystem) :
    handle_response sp st (some (Json.obj [("advisories", Json.arr L)])) fs =
      handle_response sp st (some (Json.arr L)) fs := by
  simp only [handle_response, lookupField]
  split_ifs <;> simp

/-- C5 (amended: the required identifier field is `advisoryId`, not `id`):
a file is persisted for a record exactly when the record is a dict
holding the identifier key, so a record lacking it is skipped while every
sibling holding it is still persisted; in particular the batch
`[{advisoryId: A1}, {foo: bar}, {advisoryId: A2}]` yields exactly the two
files `A1.json` and `A2.json` in the output directory. -/
theorem C5_missing_identifier_skipped_siblings_persisted :
    (∀ (l : List Json) (sp : String) (fs : FileSystem) (name : String),
      name ∈ (persistAll sp fs l).fileNames ↔
        name ∈ fs.fileNames ∨ ∃ a ∈ l, advisoryFileName sp a = some name) ∧
    advisoryFileName "out" (Json.obj [("foo", Json.str "bar")]) = none ∧
    Except.map FileSystem.fileNames
      (process_advisories (Json.arr
        [Json.obj [("advisoryId", Json.str "A1")],
         Json.obj [("foo", Json.str "bar")],
         Json.obj [("advisoryId", Json.str "A2")]]) "out" ⟨["out"], []⟩) =
      Except.ok ["out/A1.json", "out/A2.json"] :=
  ⟨fun l sp fs name => persistAll_fileNames sp l fs name, rfl, rfl⟩

/-- C6: the wrapped shape `advisories: L` and the bare top-level list `L`
decode to the same record sequence, and a `download_csaf` call fed one
response body behaves identically to one fed the other. -/
theorem C6_wrapped_and_bare_shapes_agree (L : List Json) (sp tok : String)
    (days : ℕ) (today : Date) (st : ℕ) (w : World) :
    decodeResponse (Json.obj [("advisories", Json.arr L)]) = some (Json.arr L) ∧
    decodeResponse (Json.arr L) = some (Json.arr L) ∧
    download_csaf sp tok "all" days today
        (HttpResult.response st (some (Json.obj [("advisories", Json.arr L)]))) w =
      download_csaf sp tok "all" days today
        (HttpResult.response st (some (Json.arr L))) w := by
  refine ⟨by simp [decodeResponse, lookupField], rfl, ?_⟩
  simp only [download_csaf]
  rw [handle_response_wrapped_eq_bare]

/-- C7: in date-range mode with a positive day count the URL is the
`lastpublished` endpoint with `startDate = today - days` and
`endDate = today`, both as `YYYY-MM-DD`; at `days = 2` and a simulated
today of 2024-03-10 this is startDate 2024-03-08, endDate 2024-03-10. -/
theorem C7_date_range_url (days : ℕ) (today : Date) (h : 0 < days) :
    buildUrl "dates" days today =
      some (CISCO_API_BASE_URL ++ "/lastpublished?startDate=" ++
        formatDate (subDays today days) ++ "&endDate=" ++ formatDate today) ∧
    buildUrl "dates" 2 ⟨2024, 3, 10⟩ =
      some ("https://apix.cisco.com/security/advisories/v2/all/lastpublished?startDate=2024-03-08&endDate=2024-03-10") :=
  ⟨rfl, rfl⟩

/-- C10: `download_csaf` puts the output directory in place before the
mode check, so the directory exists afterwards on every path, and the
invalid-mode path returns failure without touching the rate limiter,
without sleeping and without issuing the HTTP call. -/
theorem C10_directory_created_before_mode_check (sp tok mode : String)
    (days : ℕ) (today : Date) (http : HttpResult) (w : World) :
    sp ∈ (download_csaf sp tok mode days today http w).world.fs.dirs ∧
    (mode ≠ "all" → mode ≠ "dates" →
      (download_csaf sp tok mode days today http w).success = false ∧
      (download_csaf sp tok mode days today http w).world.rl = w.rl ∧
      (download_csaf sp tok mode days today http w).world.now = w.now ∧
      (download_csaf sp tok mode days today http w).httpCalled = false) := by
  have hmem : sp ∈ (if sp ∈ w.fs.dirs then w.fs
      else (⟨sp :: w.fs.dirs, w.fs.files⟩ : FileSystem)).dirs := by
    split_ifs with h
    · exact h
    · exact List.mem_cons_self _ _
  constructor
  · simp only [download_csaf]
    cases hbu : buildUrl mode days today with
    | none => simpa using hmem
    | some u =>
      cases http with
      | transportError msg => simpa using hmem
      | response st body =>
        simp only []
        rw [handle_response_dirs]
        simpa using hmem
  · intro h1 h2
    have hbu : buildUrl mode days today = none := by
      simp [buildUrl, h1, h2]
    simp [download_csaf, hbu]

/-- C3 (amended): when `requests.get` returns a response — success, 403,
any error status, or an unparseable body — `increment` runs exactly once
after the `wait_if_needed` of that call; when the GET itself raises a
transport-level exception, control jumps to the handler and `increment`
never runs, so that call consumes no quota despite having been issued. -/
theorem C3_increment_once_iff_response_returned (sp tok mode : String)
    (days : ℕ) (today : Date) (st : ℕ) (body : Option Json) (em : String)
    (w : World) (hm : mode = "all" ∨ mode = "dates") :
    (download_csaf sp tok mode days today (HttpResult.response st body) w).world.rl =
      increment (wait_if_needed w.rl w.now).1 ∧
    (download_csaf sp tok mode days today (HttpResult.response st body) w).httpCalled
      = true ∧
    (download_csaf sp tok mode days today (HttpResult.transportError em) w).world.rl =
      (wait_if_needed w.rl w.now).1 ∧
    (download_csaf sp tok mode days today (HttpResult.transportError em) w).httpCalled
      = true := by
  obtain ⟨u, hu⟩ : ∃ u, buildUrl mode days today = some u := by
    rcases hm with h | h <;> subst h <;> exact ⟨_, rfl⟩
  simp [download_csaf, hu]

theorem mainAfterToken_bounds (tok : String) (gcb : ℕ)
    (gen : ℕ → Option String) (sp mode : String) (days : ℕ) (today : Date)
    (https : ℕ → HttpResult) (w : World) :
    (mainAfterToken tok gcb gen sp mode days today https w).runCalls ≤ 2 ∧
    (mainAfterToken tok gcb gen sp mode days today https w).exitCode = 0 ∧
    (mainAfterToken tok gcb gen sp mode days today https w).tokenCalls ≤ gcb + 1 := by
  simp only [mainAfterToken]
  split_ifs with hs
  · simp
  · cases hg : gen gcb with
    | none => simp
    | some tok2 => simp

/-- C2 (amended): the driver refreshes the token and retries exactly once
when and only when the first `download_csaf` call returns failure of any
kind — the attempt result is a bare bool, so an authentication failure is
not distinguished from any other failure.  The second attempt's outcome
is discarded: there is never a third run call or a second refresh. -/
theorem C2_retry_once_on_any_first_failure (cliToken : Option String)
    (gen : ℕ → Option String) (sp mode : String) (days : ℕ) (today : Date)
    (https : ℕ → HttpResult) (w : World) :
    (mainDriver cliToken gen sp mode days today https w).runCalls ≤ 2 ∧
    (cliToken = none → gen 0 = none →
      (mainDriver cliToken gen sp mode days today https w).runCalls = 0 ∧
      (mainDriver cliToken gen sp mode days today https w).tokenCalls = 1) ∧
    (∀ tok, cliToken = some tok →
      ((download_csaf sp tok mode days today (https 0) w).success = true →
        (mainDriver cliToken gen sp mode days today https w).runCalls = 1 ∧
        (mainDriver cliToken gen sp mode days today https w).tokenCalls = 0) ∧
      ((download_csaf sp tok mode days today (https 0) w).success = false →
        ∀ tok2, gen 0 = some tok2 →
          (mainDriver cliToken gen sp mode days today https w).runCalls = 2 ∧
          (mainDriver cliToken gen sp mode days today https w).tokenCalls = 1 ∧
          (mainDriver cliToken gen sp mode days today https w).world =
            (download_csaf sp tok2 mode days today (https 1)
              (download_csaf sp tok mode days today (https 0) w).world).world) ∧
      ((download_csaf sp tok mode days today (https 0) w).success = false →
        gen 0 = none →
        (mainDriver cliToken gen sp mode days today https w).runCalls = 1 ∧
        (mainDriver cliToken gen sp mode days today https w).tokenCalls = 1)) := by
  refine ⟨?_, fun hct hg => ?_, fun tok hct => ?_⟩
  · cases cliToken with
    | none =>
      cases hg : gen 0 with
      | none => simp [mainDriver, hg]
      | some tok =>
        simpa [mainDriver, hg] using
          (mainAfterToken_bounds tok 1 gen sp mode days today https w).1
    | some tok =>
      simpa [mainDriver] using
        (mainAfterToken_bounds tok 0 gen sp mode days today https w).1
  · subst hct; simp [mainDriver, hg]
  · subst hct
    refine ⟨fun hs => ?_, fun hs tok2 hg => ?_, fun hs hg => ?_⟩
    · simp [mainDriver, mainAfterToken, hs]
    · simp [mainDriver, mainAfterToken, hs, hg]
    · simp [mainDriver, mainAfterToken, hs, hg]

/-- C8 (amended): failure paths do print a human-readable diagnostic, but
the process always terminates with exit status 0 — `main` returns without
`sys.exit` on every path, including token-acquisition failure and
download failure — so the terminal outcome is never non-zero. -/
theorem C8_diagnostics_printed_but_exit_status_zero (cliToken : Option String)
    (gen : ℕ → Option String) (sp mode : String) (days : ℕ) (today : Date)
    (https : ℕ → HttpResult) (w : World) :
    (mainDriver cliToken gen sp mode days today https w).exitCode = 0 ∧
    (cliToken = none → gen 0 = none →
      "Failed to obtain token. Exiting." ∈
        (mainDriver cliToken gen sp mode days today https w).output) ∧
    (∀ tok, cliToken = some tok →
      (download_csaf sp tok mode days today (https 0) w).success = false →
      "Initial download attempt failed. Attempting to refresh token and retry..." ∈
        (mainDriver cliToken gen sp mode days today https w).output) := by
  refine ⟨?_, fun hct hg => ?_, fun tok hct hs => ?_⟩
  · cases cliToken with
    | none =>
      cases hg : gen 0 with
      | none => simp [mainDriver, hg]
      | some tok =>
        simpa [mainDriver, hg] using
          (mainAfterToken_bounds tok 1 gen sp mode days today https w).2.1
    | some tok =>
      simpa [mainDriver] using
        (mainAfterToken_bounds tok 0 gen sp mode days today https w).2.1
  · subst hct; simp [mainDriver, hg]
  · subst hct
    cases hg : gen 0 with
    | none => simp [mainDriver, mainAfterToken, hs, hg]
    | some tok2 => simp [mainDriver, mainAfterToken, hs, hg]

/-!
Concrete executions.  Batteries marks the rational arithmetic operations
irreducible, which blocks `decide` on concrete limiter states; they are
restored to semireducible for the closed computations below.
-/

attribute [local semireducible] Rat.add Rat.sub Rat.mul Rat.inv

/-- C1 counterexample: starting from a fresh limiter, five calls at
t = 0.9 s and five more at t = 1.0 s are all permitted with no injected
wait (the final wall clock equals the last request time), yet all ten
fall strictly inside the rolling one-second window (0.5 s, 1.5 s) — the
fixed-window scheme lets a burst of 2x the limit through a rolling
window spanning a window boundary, refuting the rolling-window bound. -/
theorem C1_rolling_window_exceeded :
    5 < callsIn (1/2) (3/2)
        (runTrace (RateLimiter.init 0) 0
          ([9/10, 9/10, 9/10, 9/10, 9/10, 1, 1, 1, 1, 1] : List ℚ)).2.2 ∧
    callsIn (1/2) (3/2)
        (runTrace (RateLimiter.init 0) 0
          ([9/10, 9/10, 9/10, 9/10, 9/10, 1, 1, 1, 1, 1] : List ℚ)).2.2 = 10 ∧
    (runTrace (RateLimiter.init 0) 0
        ([9/10, 9/10, 9/10, 9/10, 9/10, 1, 1, 1, 1, 1] : List ℚ)).2.1 = 1 := by
  refine ⟨?_, ?_, ?_⟩ <;> decide

/-- C2 counterexample: a transport-level failure of the first attempt —
not an authentication error, no 403 involved — still makes the driver
refresh the token and run a second attempt, refuting "only when the
first run call returns an authentication error". -/
theorem C2_retry_despite_non_auth_failure :
    (download_csaf "out" "tok" "all" 2 ⟨2024, 3, 10⟩
        (HttpResult.transportError "boom")
        ⟨⟨[], []⟩, RateLimiter.init 0, 0⟩).success = false ∧
    (mainDriver (some "tok") (fun _ => some "fresh") "out" "all" 2 ⟨2024, 3, 10⟩
        (fun _ => HttpResult.transportError "boom")
        ⟨⟨[], []⟩, RateLimiter.init 0, 0⟩).runCalls = 2 ∧
    (mainDriver (some "tok") (fun _ => some "fresh") "out" "all" 2 ⟨2024, 3, 10⟩
        (fun _ => HttpResult.transportError "boom")
        ⟨⟨[], []⟩, RateLimiter.init 0, 0⟩).tokenCalls = 1 := by
  refine ⟨?_, ?_, ?_⟩ <;> decide

/-- C2 witness: with a token on the command line, a failing first attempt
and an available fresh token, the driver runs exactly twice and refreshes
exactly once, and the final state is that of the second attempt. -/
theorem C2_retry_once_on_any_first_failure_witness :
    (mainDriver (some "tok") (fun _ => some "fresh") "out" "all" 2 ⟨2024, 3, 10⟩
        (fun _ => HttpResult.transportError "net down")
        ⟨⟨[], []⟩, RateLimiter.init 0, 0⟩).runCalls = 2 ∧
    (mainDriver (some "tok") (fun _ => some "fresh") "out" "all" 2 ⟨2024, 3, 10⟩
        (fun _ => HttpResult.transportError "net down")
        ⟨⟨[], []⟩, RateLimiter.init 0, 0⟩).tokenCalls = 1 ∧
    (mainDriver (some "tok") (fun _ => some "fresh") "out" "all" 2 ⟨2024, 3, 10⟩
        (fun _ => HttpResult.transportError "net down")
        ⟨⟨[], []⟩, RateLimiter.init 0, 0⟩).world =
      (download_csaf "out" "fresh" "all" 2 ⟨2024, 3, 10⟩
        (HttpResult.transportError "net down")
        (download_csaf "out" "tok" "all" 2 ⟨2024, 3, 10⟩
          (HttpResult.transportError "net down")
          ⟨⟨[], []⟩, RateLimiter.init 0, 0⟩).world).world :=
  ((C2_retry_once_on_any_first_failure (some "tok") (fun _ => some "fresh")
      "out" "all" 2 ⟨2024, 3, 10⟩ (fun _ => HttpResult.transportError "net down")
      ⟨⟨[], []⟩, RateLimiter.init 0, 0⟩).2.2 "tok" rfl).2.1 (by decide) "fresh" rfl

/-- C3 counterexample: a run that reaches the HTTP call but suffers a
transport-level failure consumes no quota — every counter is still 0
afterwards, where one increment would have left it at 1 — refuting
"record() is invoked exactly once ... on transport-level failure alike". -/
theorem C3_transport_failure_consumes_no_quota :
    (download_csaf "out" "tok" "all" 2 ⟨2024, 3, 10⟩
        (HttpResult.transportError "conn reset")
        ⟨⟨[], []⟩, RateLimiter.init 0, 0⟩).httpCalled = true ∧
    (download_csaf "out" "tok" "all" 2 ⟨2024, 3, 10⟩
        (HttpResult.transportError "conn reset")
        ⟨⟨[], []⟩, RateLimiter.init 0, 0⟩).world.rl.day_counter = 0 ∧
    (increment (wait_if_needed (RateLimiter.init 0) 0).1).day_counter = 1 := by
  refine ⟨?_, ?_, ?_⟩ <;> decide

/-- C3 witness: a 403 response consumes exactly one unit of quota, and a
transport failure in the same state consumes none. -/
theorem C3_increment_once_iff_response_returned_witness :
    (download_csaf "out" "tok" "all" 2 ⟨2024, 3, 10⟩
        (HttpResult.response 403 none)
        ⟨⟨[], []⟩, RateLimiter.init 0, 0⟩).world.rl =
      increment (wait_if_needed (RateLimiter.init 0) 0).1 ∧
    (download_csaf "out" "tok" "all" 2 ⟨2024, 3, 10⟩
        (HttpResult.response 403 none)
        ⟨⟨[], []⟩, RateLimiter.init 0, 0⟩).httpCalled = true ∧
    (download_csaf "out" "tok" "all" 2 ⟨2024, 3, 10⟩
        (HttpResult.transportError "e")
        ⟨⟨[], []⟩, RateLimiter.init 0, 0⟩).world.rl =
      (wait_if_needed (RateLimiter.init 0) 0).1 ∧
    (download_csaf "out" "tok" "all" 2 ⟨2024, 3, 10⟩
        (HttpResult.transportError "e")
        ⟨⟨[], []⟩, RateLimiter.init 0, 0⟩).httpCalled = true :=
  C3_increment_once_iff_response_returned "out" "tok" "all" 2 ⟨2024, 3, 10⟩
    403 none "e" ⟨⟨[], []⟩, RateLimiter.init 0, 0⟩ (Or.inl rfl)

/-- C4 witness: a limiter whose second window is at its limit with half
the window elapsed sleeps for exactly the remaining half second, resets
the counter and moves the window start to the new current time. -/
theorem C4_over_limit_sleep_and_reset_witness :
    (wait_if_needed ⟨0, 5, 0, 0, 0, 0⟩ (1/2)).1.second_counter = 0 ∧
    (wait_if_needed ⟨0, 5, 0, 0, 0, 0⟩ (1/2)).1.second_timestamp =
      1/2 + sleepSecond ⟨0, 5, 0, 0, 0, 0⟩ (1/2) ∧
    waitSecond ⟨0, 5, 0, 0, 0, 0⟩ (1/2) = sleepSecond ⟨0, 5, 0, 0, 0, 0⟩ (1/2) :=
  ((C4_over_limit_sleep_and_reset ⟨0, 5, 0, 0, 0, 0⟩ (1/2)).2.1
    (by decide)).1 (by decide)

/-- C5 counterexample: the batch of the claim, keyed `id` rather than the
identifier field the code requires (`advisoryId`), persists no file at
all instead of the claimed `A1.json` and `A2.json`. -/
theorem C5_id_keyed_batch_persists_nothing :
    Except.map FileSystem.fileNames
      (process_advisories (Json.arr
        [Json.obj [("id", Json.str "A1")], Json.obj [("foo", Json.str "bar")],
         Json.obj [("id", Json.str "A2")]]) "out" ⟨["out"], []⟩) =
      Except.ok [] ∧
    (Except.ok ([] : List String) : Except Unit (List String)) ≠
      Except.ok ["out/A1.json", "out/A2.json"] := by
  refine ⟨rfl, ?_⟩
  intro h
  simp at h

/-- C7 witness: days = 2 at a simulated today of 2024-03-10. -/
theorem C7_date_range_url_witness :
    buildUrl "dates" 2 ⟨2024, 3, 10⟩ =
      some ("https://apix.cisco.com/security/advisories/v2/all/lastpublished?startDate=2024-03-08&endDate=2024-03-10") :=
  (C7_date_range_url 2 ⟨2024, 3, 10⟩ (by decide)).2

/-- C8 counterexample: a run whose token acquisition fails — an overall
failure — prints its diagnostic but terminates with exit status 0, not a
non-zero one. -/
theorem C8_failed_run_exits_with_status_zero :
    (mainDriver none (fun _ => none) "out" "all" 2 ⟨2024, 3, 10⟩
        (fun _ => HttpResult.transportError "x")
        ⟨⟨[], []⟩, RateLimiter.init 0, 0⟩).runCalls = 0 ∧
    (mainDriver none (fun _ => none) "out" "all" 2 ⟨2024, 3, 10⟩
        (fun _ => HttpResult.transportError "x")
        ⟨⟨[], []⟩, RateLimiter.init 0, 0⟩).exitCode = 0 ∧
    "Failed to obtain token. Exiting." ∈
      (mainDriver none (fun _ => none) "out" "all" 2 ⟨2024, 3, 10⟩
        (fun _ => HttpResult.transportError "x")
        ⟨⟨[], []⟩, RateLimiter.init 0, 0⟩).output := by
  refine ⟨?_, ?_, ?_⟩ <;> decide

/-- C8 witness: exit status 0 and the token-failure diagnostic on a
concrete failing run. -/
theorem C8_diagnostics_printed_but_exit_status_zero_witness :
    (mainDriver none (fun _ => none) "o" "all" 1 ⟨2024, 1, 1⟩
        (fun _ => HttpResult.response 200 none)
        ⟨⟨[], []⟩, RateLimiter.init 0, 0⟩).exitCode = 0 ∧
    "Failed to obtain token. Exiting." ∈
      (mainDriver none (fun _ => none) "o" "all" 1 ⟨2024, 1, 1⟩
        (fun _ => HttpResult.response 200 none)
        ⟨⟨[], []⟩, RateLimiter.init 0, 0⟩).output :=
  ⟨(C8_diagnostics_printed_but_exit_status_zero none (fun _ => none) "o" "all" 1
      ⟨2024, 1, 1⟩ (fun _ => HttpResult.response 200 none)
      ⟨⟨[], []⟩, RateLimiter.init 0, 0⟩).1,
   (C8_diagnostics_printed_but_exit_status_zero none (fun _ => none) "o" "all" 1
      ⟨2024, 1, 1⟩ (fun _ => HttpResult.response 200 none)
      ⟨⟨[], []⟩, RateLimiter.init 0, 0⟩).2.1 rfl rfl⟩

/-- C10 witness: an invalid mode still creates the output directory and
returns failure with the limiter, clock and HTTP flag untouched. -/
theorem C10_directory_created_before_mode_check_witness :
    "out" ∈ (download_csaf "out" "tok" "bogus" 2 ⟨2024, 1, 2⟩
        (HttpResult.response 200 none)
        ⟨⟨[], []⟩, RateLimiter.init 0, 0⟩).world.fs.dirs ∧
    (download_csaf "out" "tok" "bogus" 2 ⟨2024, 1, 2⟩
        (HttpResult.response 200 none)
        ⟨⟨[], []⟩, RateLimiter.init 0, 0⟩).success = false ∧
    (download_csaf "out" "tok" "bogus" 2 ⟨2024, 1, 2⟩
        (HttpResult.response 200 none)
        ⟨⟨[], []⟩, RateLimiter.init 0, 0⟩).world.rl = RateLimiter.init 0 ∧
    (download_csaf "out" "tok" "bogus" 2 ⟨2024, 1, 2⟩
        (HttpResult.response 200 none)
        ⟨⟨[], []⟩, RateLimiter.init 0, 0⟩).world.now = 0 ∧
    (download_csaf "out" "tok" "bogus" 2 ⟨2024, 1, 2⟩
        (HttpResult.response 200 none)
        ⟨⟨[], []⟩, RateLimiter.init 0, 0⟩).httpCalled = false :=
  have h := C10_directory_created_before_mode_check "out" "tok" "bogus" 2
    ⟨2024, 1, 2⟩ (HttpResult.response 200 none) ⟨⟨[], []⟩, RateLimiter.init 0, 0⟩
  have h2 := h.2 (by decide) (by decide)
  ⟨h.1, h2.1, h2.2.1, h2.2.2.1, h2.2.2.2⟩
